import Mathlib

/-!
Verification development for the RAM-Resource-Controls repository.

The definitions below are a shallow embedding of the decision logic of the
repository: the whitelist/blacklist policy layer (WhitelistManager in
src/BADGE_SYSTEM.md), the eviction engine (the first ResourceControls variant
in src/unnamed/part_001) and the policy-aware selection loop of
src/background.js (checkAndSleepTabsWithML).

Conventions of the embedding:
* JavaScript numbers that only ever hold integer values are modelled as Nat or
  Int; the one-decimal memory percentage and the scaled sleep timer are
  modelled as rationals.  Where the source compares a real-division result
  against an integer bound, the comparison is rewritten into the equivalent
  integer comparison and the equivalence is noted in a comment.
* Host primitives (the URL parser of the browser, chrome.system.memory,
  chrome.tabs) are modelled at their interface boundary.
* Fallible operations return Option: returning none models a thrown error or
  the null result of the source.
-/

/-- Checks that `needle` is a leading run of `hay` (character lists). -/
def leadRun : List Char → List Char → Bool
  | [], _ => true
  | _ :: _, [] => false
  | c :: cs, d :: ds => c == d && leadRun cs ds

/-- Substring search on character lists: does `needle` occur inside `hay`?
Models the JavaScript regular-expression test of an unanchored literal
alternative such as `/gmail|drive/.test(hostname)`. -/
def hasSub (hay needle : List Char) : Bool :=
  match hay with
  | [] => needle.isEmpty
  | _ :: tl => leadRun needle hay || hasSub tl needle

/-- String-level wrapper for `hasSub`. -/
def containsSub (hay needle : String) : Bool :=
  hasSub hay.toList needle.toList

/-- Does `hay` contain any of the given substrings? -/
def containsAny (hay : String) (needles : List String) : Bool :=
  needles.any (fun n => containsSub hay n)

/-- Fuel-indexed wildcard matcher.  A pattern character `*` matches any run of
characters (possibly empty); every other character matches itself.  The fuel
argument only makes the recursion structural: every recursive call strictly
decreases `pattern.length + s.length`, so fuel `pattern.length + s.length + 1`
can never run out. -/
def globMatchAux : Nat → List Char → List Char → Bool
  | 0, _, _ => false
  | _ + 1, [], [] => true
  | _ + 1, [], _ :: _ => false
  | f + 1, '*' :: ps, [] => globMatchAux f ps []
  | f + 1, '*' :: ps, c :: cs =>
      globMatchAux f ps (c :: cs) || globMatchAux f ('*' :: ps) cs
  | _ + 1, _ :: _, [] => false
  | f + 1, p :: ps, c :: cs => p == c && globMatchAux f ps cs

/-- Anchored wildcard match of a whole string against a whole pattern. -/
def globMatch (pattern s : List Char) : Bool :=
  globMatchAux (pattern.length + s.length + 1) pattern s

/-- One compiled whitelist/blacklist pattern applied to a hostname.  Models
WhitelistManager.compilePatterns (src/BADGE_SYSTEM.md lines 431-447): the
stored domain is turned into the anchored case-insensitive regular expression
`^domain$` with `.` escaped and `*` replaced by `.*`, and tested against the
hostname.  Lowercasing both sides models the `i` flag for the ASCII alphabet
of domain names. -/
def patternTest (pattern hostname : String) : Bool :=
  globMatch (pattern.toList.map Char.toLower) (hostname.toList.map Char.toLower)

/-- Model of the hostname component of the host URL parser, `new
URL(url).hostname`.  The scheme separator `://` must occur; the hostname is
the maximal run after it not containing `/`, `:`, `?` or `#`, lowercased by
the parser.  A missing separator or an empty hostname is a parse failure
(`new URL` throws), modelled as none.  Authority userinfo and scheme-relative
forms are outside the inputs this development exercises. -/
def hostRun : List Char → List Char
  | [] => []
  | c :: cs =>
      if c = '/' ∨ c = ':' ∨ c = '?' ∨ c = '#' then []
      else c :: hostRun cs

/-- Scan for the `://` separator and return the remainder after it. -/
def afterScheme : List Char → Option (List Char)
  | ':' :: '/' :: '/' :: rest => some rest
  | _ :: tl => afterScheme tl
  | [] => none

/-- Hostname extraction from a URL string; none models a thrown TypeError. -/
def parseHostname (url : String) : Option String :=
  match afterScheme url.toList with
  | none => none
  | some rest =>
      let host := hostRun rest
      if host.isEmpty then none
      else some (String.mk (host.map Char.toLower))

/-- WhitelistManager state: the allow-set and deny-set of stored domain
patterns (src/BADGE_SYSTEM.md lines 391-399).  The compiled regular
expression arrays are recomputed from the same lists on every mutation, so
they are represented by the lists themselves, matched through
`patternTest`. -/
structure WhitelistManager where
  whitelist : List String
  blacklist : List String
deriving DecidableEq

/-- WhitelistManager.isWhitelisted (src/BADGE_SYSTEM.md lines 514-527):
parse the hostname, check exact set membership, then the compiled patterns;
a URL parse failure is caught and yields false. -/
def isWhitelisted (wm : WhitelistManager) (url : String) : Bool :=
  match parseHostname url with
  | none => false
  | some domain =>
      wm.whitelist.contains domain
        || wm.whitelist.any (fun p => patternTest p domain)

/-- WhitelistManager.isBlacklisted (src/BADGE_SYSTEM.md lines 532-545). -/
def isBlacklisted (wm : WhitelistManager) (url : String) : Bool :=
  match parseHostname url with
  | none => false
  | some domain =>
      wm.blacklist.contains domain
        || wm.blacklist.any (fun p => patternTest p domain)

/-- WhitelistManager.canSleep (src/BADGE_SYSTEM.md lines 550-563).  The
JavaScript results false / true / null are modelled as
some false / some true / none. -/
def canSleep (wm : WhitelistManager) (url : String) : Option Bool :=
  if isWhitelisted wm url then some false
  else if isBlacklisted wm url then some true
  else none

/-- WhitelistManager.getSleepPriority (src/BADGE_SYSTEM.md lines 571-575):
0 = never sleep (whitelist), 1 = normal, 2 = priority sleep (blacklist). -/
def getSleepPriority (wm : WhitelistManager) (url : String) : Nat :=
  if isWhitelisted wm url then 0
  else if isBlacklisted wm url then 2
  else 1

/-! ## ResourceControls: configuration

Embeds the first ResourceControls variant of src/unnamed/part_001
(the v3.0 Advanced Core Module, lines 1-798). -/

/-- Engine configuration (constructor, src/unnamed/part_001 lines 8-20).
All numeric fields hold integer values in the source, so they are Int here.
The three thresholds are whole percents. -/
structure Config where
  ramLimit : Int
  sleepTimer : Int
  autoSleep : Bool
  aggressiveMode : Bool
  checkInterval : Int
  updateInterval : Int
  minInactiveTime : Int
  maxCacheAge : Int
  emergencyThreshold : Int
  warningThreshold : Int
  optimalThreshold : Int
deriving DecidableEq

/-- The constructor defaults (src/unnamed/part_001 lines 8-20). -/
def defaultConfig : Config :=
  { ramLimit := 2000
    sleepTimer := 10
    autoSleep := false
    aggressiveMode := false
    checkInterval := 60000
    updateInterval := 3000
    minInactiveTime := 60000
    maxCacheAge := 2000
    emergencyThreshold := 85
    warningThreshold := 70
    optimalThreshold := 60 }

/-- A settings update, as passed to updateConfig.  A missing key is none.
Only the keys the control surface sends are modelled. -/
structure ConfigUpdate where
  ramLimit : Option Int
  sleepTimer : Option Int
  autoSleep : Option Bool
  aggressiveMode : Option Bool
deriving DecidableEq

/-- ResourceControls.updateConfig (src/unnamed/part_001 lines 163-175).
The source guards each clamp with the JavaScript truthiness test
`if (newConfig.ramLimit)`, so a present value of 0 skips its clamp and is
still merged by Object.assign; this is modelled by the v = 0 branches.
After the clamps, present keys overwrite the stored config. -/
def updateConfig (cfg : Config) (nc : ConfigUpdate) : Config :=
  let newRam : Option Int :=
    match nc.ramLimit with
    | none => none
    | some v => if v = 0 then some v else some (max 1000 (min 5000 v))
  let newTimer : Option Int :=
    match nc.sleepTimer with
    | none => none
    | some v => if v = 0 then some v else some (max 1 (min 60 v))
  { cfg with
      ramLimit := newRam.getD cfg.ramLimit
      sleepTimer := newTimer.getD cfg.sleepTimer
      autoSleep := nc.autoSleep.getD cfg.autoSleep
      aggressiveMode := nc.aggressiveMode.getD cfg.aggressiveMode }

/-! ## ResourceControls: memory sampling

The one-decimal usage percentage produced by
`parseFloat(((usedMB / totalMB) * 100).toFixed(1))` is an exact multiple of
one tenth of a percent, so it is represented as an Int counting tenths of a
percent (90% = 900).  Every comparison the source makes against it is against
a whole-percent threshold, and such a comparison on the underlying double
agrees exactly with the comparison on the represented rational, because a
non-integer multiple of 1/10 is never rounded across an integer by double
precision in this range. -/

/-- Memory pressure tier. -/
inductive MemStatus where
  | optimal
  | elevated
  | warning
  | critical
deriving DecidableEq

/-- Severity order of the tiers, optimal < elevated < warning < critical. -/
def severityRank : MemStatus → Nat
  | .optimal => 0
  | .elevated => 1
  | .warning => 2
  | .critical => 3

/-- Status classification (src/unnamed/part_001 lines 198-202): starts at
optimal and escalates through the strict threshold comparisons.
`usageTenths` is the usage percentage in tenths, thresholds whole percents. -/
def classifyStatus (cfg : Config) (usageTenths : Int) : MemStatus :=
  if usageTenths > 10 * cfg.emergencyThreshold then .critical
  else if usageTenths > 10 * cfg.warningThreshold then .warning
  else if usageTenths > 10 * cfg.optimalThreshold then .elevated
  else .optimal

/-- A classified memory reading (src/unnamed/part_001 lines 204-214). -/
structure MemoryReading where
  totalMB : Int
  availableMB : Int
  usedMB : Int
  usageTenths : Int
  status : MemStatus
  timestamp : Nat
  stale : Bool
deriving DecidableEq

/-- The raw result of the memory source, chrome.system.memory.getInfo. -/
structure RawMemoryInfo where
  capacity : Nat
  availableCapacity : Nat
deriving DecidableEq

/-- JavaScript Math.round: round half toward positive infinity. -/
def jsRound (x : ℚ) : Int := Int.floor (x + 1 / 2)

/-- The cache held between getMemoryInfo calls
(src/unnamed/part_001 lines 25-26). -/
structure MemCacheState where
  memoryCache : Option MemoryReading
  memoryCacheTime : Nat
deriving DecidableEq

/-- Success path of getMemoryInfo (src/unnamed/part_001 lines 191-214):
converts the raw byte counts to MB, derives the rounded one-decimal
percentage (represented in tenths) and classifies it.  toFixed(1) rounds the
quotient to the nearest tenth, which is jsRound of ten times the
percentage. -/
def computeReading (cfg : Config) (raw : RawMemoryInfo) (now : Nat) : MemoryReading :=
  let totalMB := jsRound ((raw.capacity : ℚ) / (1024 * 1024))
  let availableMB := jsRound ((raw.availableCapacity : ℚ) / (1024 * 1024))
  let usedMB := totalMB - availableMB
  let usageTenths := jsRound ((usedMB : ℚ) / (totalMB : ℚ) * 1000)
  { totalMB := totalMB
    availableMB := availableMB
    usedMB := usedMB
    usageTenths := usageTenths
    status := classifyStatus cfg usageTenths
    timestamp := now
    stale := false }

/-- ResourceControls.getMemoryInfo (src/unnamed/part_001 lines 180-228) as a
pure state transformer.  The awaited memory source call is the `source`
argument; Except.error models the thrown error of the primitive.  Returns
the reading (none models the null fallback) and the new cache state.
The fresh-cache test mirrors
`this.memoryCache && (now - this.memoryCacheTime) < this.config.maxCacheAge`. -/
def getMemoryInfo (cfg : Config) (st : MemCacheState) (now : Nat)
    (source : Except Unit RawMemoryInfo) : Option MemoryReading × MemCacheState :=
  if st.memoryCache.isSome && decide ((now : Int) - st.memoryCacheTime < cfg.maxCacheAge) then
    (st.memoryCache, st)
  else
    match source with
    | Except.ok raw =>
        let reading := computeReading cfg raw now
        (some reading, { memoryCache := some reading, memoryCacheTime := now })
    | Except.error _ =>
        match st.memoryCache with
        | some c => (some { c with stale := true }, st)
        | none => (none, st)

/-! ## ResourceControls: per-tab data and scoring

Time conventions: activity timestamps and inactivity durations are integer
milliseconds (Nat).  The effective sleep timer is the base timer multiplied
by one of 0.2, 0.3, 0.5, 0.6, 0.7, 0.8, 0.9 or 1 and later by 1.5 or 2, all
exact multiples of one twentieth, so it is represented exactly as an Int
counting twentieths of a millisecond and every comparison against a
millisecond count is cross-multiplied accordingly. -/

/-- Per-tab metadata record (src/unnamed/part_001 lines 117-125). -/
structure TabMeta where
  createdAt : Nat
  activationCount : Nat
  totalActiveTime : Nat
  lastSleepTime : Option Nat
  sleepCount : Nat
deriving DecidableEq

/-- One entry of tabsInfo.tabs as built by getTabsInfo
(src/unnamed/part_001 lines 256-270): the live tab flags joined with the
tracked activity data and the computed sleep score. -/
structure TabInfo where
  id : Nat
  url : String
  isActive : Bool
  isSleeping : Bool
  audible : Bool
  inactiveTime : Nat
  sleepScore : Int
  metadata : Option TabMeta
deriving DecidableEq

/-- Does `s` start with `lead`?  (String.startsWith, written over character
lists so that concrete instances reduce in the kernel.) -/
def strStarts (s lead : String) : Bool := leadRun lead.toList s.toList

/-- ResourceControls.isSystemPage (src/unnamed/part_001 lines 652-658). -/
def isSystemPage (url : String) : Bool :=
  strStarts url "chrome://" || strStarts url "chrome-extension://"
    || strStarts url "edge://" || strStarts url "about:" || strStarts url "data:"

/-- ResourceControls.calculateSleepScore (src/unnamed/part_001 lines
302-352).  All terms are integer increments on the base score 50, so the
score is an Int and the final Math.round is the identity; the clamp
Math.max(0, Math.min(100, score)) remains.  The source derives
inactiveMinutes = inactiveTime / 60000 by real division and compares it
against 60, 30, 15, 5; for integer milliseconds those comparisons are
exactly the millisecond comparisons used here.  The URL term parses the tab
URL inside try/catch: a parse failure (none) skips the term.  The three
regular expressions are unanchored case-sensitive alternatives tested
against the (already lowercased) hostname, modelled by substring search. -/
def calculateSleepScore (now : Nat) (url : String) (inactiveTime : Nat)
    (metadata : Option TabMeta) (isActive isSleeping : Bool) : Int :=
  if isActive || isSleeping then 0
  else
    let score : Int := 50
    let score : Int :=
      if 3600000 < inactiveTime then score + 30
      else if 1800000 < inactiveTime then score + 20
      else if 900000 < inactiveTime then score + 10
      else if 300000 < inactiveTime then score + 5
      else score
    let score : Int :=
      match metadata with
      | none => score
      | some md =>
          let score :=
            if md.activationCount < 3 then score + 15
            else if md.activationCount < 10 then score + 5
            else if 30 < md.activationCount then score - 15
            else score
          match md.lastSleepTime with
          | none => score
          | some t => if now - t < 300000 then score - 20 else score
    let score : Int :=
      match parseHostname url with
      | none => score
      | some host =>
          let score :=
            if containsAny host
                ["gmail", "docs.google", "drive", "calendar", "notion", "slack"]
            then score - 15 else score
          let score :=
            if containsAny host
                ["facebook", "twitter", "instagram", "tiktok", "youtube", "netflix"]
            then score + 10 else score
          if containsAny host ["news", "blog", "medium", "reddit"]
          then score + 5 else score
    max 0 (min 100 score)

/-- The sleep score of a tab as attached by getTabsInfo
(src/unnamed/part_001 line 254): calculateSleepScore receives the activity
and state fields of the tab but not its audible flag. -/
def tabSleepScore (now : Nat) (tab : TabInfo) : Int :=
  calculateSleepScore now tab.url tab.inactiveTime tab.metadata
    tab.isActive tab.isSleeping

/-- ResourceControls.isValidSleepCandidate (src/unnamed/part_001 lines
535-540). -/
def isValidSleepCandidate (tab : TabInfo) : Bool :=
  !tab.isActive && !tab.isSleeping && !tab.audible && !isSystemPage tab.url

/-- ResourceControls.calculateEffectiveSleepTimer (src/unnamed/part_001
lines 545-560).  `baseTimer` is in milliseconds; the result counts
twentieths of a millisecond, so the multipliers 0.2 ... 0.9 become the
integer factors 4 ... 18 and the unscaled timer becomes factor 20.  The
double multiplication in the source can fall one ulp below the exact
product in the times-0.7 band for some base timers; no claim settled here
exercises that band at an exact boundary. -/
def calculateEffectiveSleepTimer (cfg : Config) (baseTimer : Int)
    (usageTenths : Int) : Int :=
  if !cfg.aggressiveMode then 20 * baseTimer
  else if usageTenths > 850 then 4 * baseTimer
  else if usageTenths > 800 then 6 * baseTimer
  else if usageTenths > 750 then 10 * baseTimer
  else if usageTenths > 700 then 12 * baseTimer
  else if usageTenths > 650 then 14 * baseTimer
  else if usageTenths > 600 then 16 * baseTimer
  else if usageTenths > 550 then 18 * baseTimer
  else 20 * baseTimer

/-- ResourceControls.shouldTabSleep (src/unnamed/part_001 lines 565-591).
`effTimer20` counts twentieths of a millisecond, so the source comparisons
inactiveTime < t, inactiveTime > t * 2 and inactiveTime > t * 1.5 become the
cross-multiplied integer comparisons below.  The age guard uses truncated
Nat subtraction, which agrees with the source also when createdAt is in the
future (a negative age is below the grace bound in both).  When metadata is
present but neither activation branch fires, control continues to the
usage and score checks, duplicated in both match arms exactly as the
source falls through its if(tab.metadata) block. -/
def shouldTabSleep (now : Nat) (tab : TabInfo) (effTimer20 : Int)
    (usageTenths : Int) : Bool :=
  if 20 * (tab.inactiveTime : Int) < effTimer20 then false
  else
    match tab.metadata with
    | some md =>
        if now - md.createdAt < 180000 then false
        else if 30 < md.activationCount then
          decide (2 * effTimer20 < 20 * (tab.inactiveTime : Int))
        else if 15 < md.activationCount then
          decide (3 * effTimer20 < 2 * (20 * (tab.inactiveTime : Int)))
        else if 850 < usageTenths then true
        else decide (60 < tab.sleepScore)
    | none =>
        if 850 < usageTenths then true
        else decide (60 < tab.sleepScore)

/-! ## ResourceControls: candidate selection -/

/-- Insert a tab into a list already sorted by sleepScore descending,
before the first entry whose score is not greater: together with
`sortScoreDesc` this realizes the unique stable descending order that the
stable JavaScript sort `(a, b) => b.sleepScore - a.sleepScore` produces. -/
def insertDesc (t : TabInfo) : List TabInfo → List TabInfo
  | [] => [t]
  | u :: us => if u.sleepScore > t.sleepScore then u :: insertDesc t us
               else t :: u :: us

/-- Stable sort by sleepScore descending. -/
def sortScoreDesc : List TabInfo → List TabInfo
  | [] => []
  | t :: ts => insertDesc t (sortScoreDesc ts)

/-- Math.ceil(n * (k/10)) for a Nat count n and a tenths factor k.  The
double computation in the source agrees with this exact rational ceiling
throughout the realistic range of list lengths (checked exhaustively far
beyond any possible tab count). -/
def jsCeilMulTenths (n k : Nat) : Nat := (n * k + 9) / 10

/-- The severity-tiered target count (src/unnamed/part_001 lines 453-462):
critical keeps 80% of the candidates, warning 60%, elevated 40%, and
every other status 30%, each via Math.ceil. -/
def tieredTargetCount (status : MemStatus) (n : Nat) : Nat :=
  match status with
  | .critical => jsCeilMulTenths n 8
  | .warning => jsCeilMulTenths n 6
  | .elevated => jsCeilMulTenths n 4
  | .optimal => jsCeilMulTenths n 3

/-- The base sleep timer in milliseconds (src/unnamed/part_001 lines
432-435): the configured minutes, floored at minInactiveTime. -/
def baseSleepTimerMs (cfg : Config) : Int :=
  max (cfg.sleepTimer * 60 * 1000) cfg.minInactiveTime

/-- The eligible candidates of one check cycle (src/unnamed/part_001 lines
443-449, before sorting): valid sleep candidates whose shouldTabSleep
decision is true for the effective timer of this cycle. -/
def eligibleCandidates (cfg : Config) (mem : MemoryReading)
    (tabs : List TabInfo) (now : Nat) : List TabInfo :=
  let effTimer20 := calculateEffectiveSleepTimer cfg (baseSleepTimerMs cfg) mem.usageTenths
  (tabs.filter isValidSleepCandidate).filter
    (fun t => shouldTabSleep now t effTimer20 mem.usageTenths)

/-- ResourceControls.emergencySleep (src/unnamed/part_001 lines 596-616) as
a selection plan: the non-protected tabs (not sleeping, not active, not
audible, not a system page) sorted by score descending; the pass discards
the first max(0, ceil(0.7 * candidates) - alreadySlept) of them.  Nat
subtraction is exactly the Math.max(0, ...) guard, and the loop bound
i < candidates.length is List.take saturation. -/
def emergencySleepPlan (tabs : List TabInfo) (alreadySlept : Nat) : List TabInfo :=
  let candidates := sortScoreDesc (tabs.filter (fun t =>
    !t.isSleeping && !t.isActive && !t.audible && !isSystemPage t.url))
  let targetCount := jsCeilMulTenths candidates.length 7
  let toSleep := targetCount - alreadySlept
  candidates.take toSleep

/-- ResourceControls.checkAndSleepTabs (src/unnamed/part_001 lines 413-498)
as a selection plan over one snapshot: the pair of the tiered-pass discard
list and the emergency-pass discard list.  The autoSleep gate returns the
empty plan.  alreadySlept is passed to the emergency pass as the length of
the tiered list, modelling a batch whose individual discard calls all
succeed.  The emergency pass runs only when aggressive mode is on and the
reading is critical (line 492). -/
def checkAndSleepPlan (cfg : Config) (mem : MemoryReading)
    (tabs : List TabInfo) (now : Nat) : List TabInfo × List TabInfo :=
  if !cfg.autoSleep then ([], [])
  else
    let candidates := sortScoreDesc (eligibleCandidates cfg mem tabs now)
    let targetCount := tieredTargetCount mem.status candidates.length
    let toSleep := candidates.take targetCount
    let emergency :=
      if cfg.aggressiveMode && decide (mem.status = .critical) then
        emergencySleepPlan tabs toSleep.length
      else []
    (toSleep, emergency)

/-! ## The policy-aware selection loop of src/background.js

checkAndSleepTabsWithML (src/background.js lines 293-374) is the one
selection loop of the repository in which the whitelist/blacklist policy
participates; it consumes the tabsInfo entries of ResourceControls.  The
per-tab optimal time computed by the ML worker is an external collaborator
and is passed in as the function `optimalTime`. -/

/-- The per-tab decision of the loop body (src/background.js lines
308-337): skip active, sleeping and audible tabs; skip the chrome:// and
chrome-extension:// system pages; skip whitelisted tabs (priority 0);
select blacklisted tabs (priority 2) immediately; otherwise select when the
inactivity exceeds the optimal time. -/
def mlSleepPredicate (wm : WhitelistManager) (optimalTime : TabInfo → Int)
    (tab : TabInfo) : Bool :=
  if tab.isActive || tab.isSleeping || tab.audible then false
  else if strStarts tab.url "chrome://" || strStarts tab.url "chrome-extension://" then false
  else if getSleepPriority wm tab.url = 0 then false
  else if getSleepPriority wm tab.url = 2 then true
  else decide ((tab.inactiveTime : Int) > optimalTime tab)

/-- The tabsToSleep list built by checkAndSleepTabsWithML: the loop pushes
exactly the tabs satisfying the predicate, in order. -/
def selectTabsToSleepML (wm : WhitelistManager) (tabs : List TabInfo)
    (optimalTime : TabInfo → Int) : List TabInfo :=
  tabs.filter (mlSleepPredicate wm optimalTime)

/-! ## Concrete instances used by witnesses and counterexamples -/

/-- Allow-set holding the wildcard pattern of Scenario C. -/
def wmAllow : WhitelistManager := ⟨["*.example.com"], []⟩

/-- Allow-set wildcard together with a conflicting deny-set entry for the
same hostname. -/
def wmBoth : WhitelistManager := ⟨["*.example.com"], ["mail.example.com"]⟩

/-- A manager with plain entries in both sets. -/
def wmPlain : WhitelistManager := ⟨["example.com"], ["bad.example"]⟩

/-- A long-idle, high-score tab on the whitelisted host. -/
def mailTab : TabInfo :=
  ⟨7, "https://mail.example.com/inbox", false, false, false, 999999999, 90, none⟩

/-- An audible background tab with no metadata, a neutral hostname and no
accumulated inactivity. -/
def audibleTabC2 : TabInfo :=
  ⟨1, "https://example.org/page", false, false, true, 0, 0, none⟩

/-- Scenario B tab: activationCount 35, created long ago, exactly 20
minutes (1200000 ms) inactive. -/
def tabB : TabInfo :=
  ⟨5, "https://example.net/", false, false, false, 1200000, 90, some ⟨0, 35, 0, none, 0⟩⟩

/-- The Scenario B tab with one extra millisecond of inactivity. -/
def tabBplus : TabInfo := { tabB with inactiveTime := 1200001 }

/-- The cycle timestamp of the emergency-pass failing input. -/
def now3 : Nat := 10000000

/-- A non-system, non-active, non-audible tab for the emergency-pass
failing input, with the given id, score and creation time. -/
def mkTabC3 (i : Nat) (score : Int) (createdAt : Nat) : TabInfo :=
  ⟨i, "https://site.test/", false, false, false, 1000000, score, some ⟨createdAt, 0, 0, none, 0⟩⟩

/-- The top-scoring tab of the emergency-pass failing input. -/
def tabC3one : TabInfo := mkTabC3 1 100 0

/-- Ten valid candidates: two of them (scores 100 and 99) are past the
creation grace period and eligible for the tiered pass; the other eight
were created at cycle time, so the grace period blocks them there, yet
they stay non-protected candidates for the emergency pass. -/
def tabs3 : List TabInfo :=
  [tabC3one, mkTabC3 2 99 0,
   mkTabC3 3 90 now3, mkTabC3 4 89 now3, mkTabC3 5 88 now3,
   mkTabC3 6 87 now3, mkTabC3 7 86 now3, mkTabC3 8 85 now3,
   mkTabC3 9 84 now3, mkTabC3 10 83 now3]

/-- Config of the failing input: auto sleep on, aggressive mode on. -/
def cfg3 : Config := { defaultConfig with autoSleep := true, aggressiveMode := true }

/-- A critical reading at 90.0% usage. -/
def mem3 : MemoryReading := ⟨8000, 800, 7200, 900, .critical, 0, false⟩

/-- Scenario A config: auto sleep on, aggressive mode off. -/
def cfg4 : Config := { defaultConfig with autoSleep := true }

/-- Scenario A memory reading: critical at 90.0%. -/
def mem4 : MemoryReading := ⟨16000, 1600, 14400, 900, .critical, 0, false⟩

/-- Scenario A tab: metadata-free, idle long past the base timer. -/
def mkTabC4 (i : Nat) (score : Int) : TabInfo :=
  ⟨i, "https://site.test/", false, false, false, 1000000, score, none⟩

/-- Ten eligible candidates with scores 90, 85, ..., 45. -/
def tabs4 : List TabInfo :=
  [mkTabC4 1 90, mkTabC4 2 85, mkTabC4 3 80, mkTabC4 4 75, mkTabC4 5 70,
   mkTabC4 6 65, mkTabC4 7 60, mkTabC4 8 55, mkTabC4 9 50, mkTabC4 10 45]

/-! ## Helper lemmas -/

theorem insertDesc_length (t : TabInfo) (l : List TabInfo) :
    (insertDesc t l).length = l.length + 1 := by
  induction l with
  | nil => rfl
  | cons u us ih => simp only [insertDesc]; split <;> simp [ih]

theorem sortScoreDesc_length (l : List TabInfo) :
    (sortScoreDesc l).length = l.length := by
  induction l with
  | nil => rfl
  | cons t ts ih => simp [sortScoreDesc, insertDesc_length, ih]

/-! ## Claims -/

/-- C7: when the memory source fails, getMemoryInfo returns a copy of the
cached reading with stale set when a cache entry exists, and the explicit
no-data result (none, never a fabricated reading) when none exists.  The
hypothesis states that the cache is not fresh, which is the only way the
source is consulted at all. -/
theorem memory_failure_stale_copy_or_no_data (cfg : Config)
    (st : MemCacheState) (now : Nat)
    (hmiss : ¬ (st.memoryCache.isSome = true ∧
      (now : Int) - st.memoryCacheTime < cfg.maxCacheAge)) :
    (getMemoryInfo cfg st now (Except.error ())).1
        = st.memoryCache.map (fun c => { c with stale := true })
    ∧ (st.memoryCache = none →
        (getMemoryInfo cfg st now (Except.error ())).1 = none) := by
  have key : (getMemoryInfo cfg st now (Except.error ())).1
      = st.memoryCache.map (fun c => { c with stale := true }) := by
    cases hmc : st.memoryCache with
    | none => simp [getMemoryInfo, hmc]
    | some c =>
        have h2 : ¬ ((now : Int) - st.memoryCacheTime < cfg.maxCacheAge) :=
          fun h => hmiss ⟨by simp [hmc], h⟩
        simp [getMemoryInfo, hmc, h2]
  exact ⟨key, fun h => by simp [key, h]⟩

/-- C7 witness: empty cache, failing source, first call: the sampler
reports no data rather than any reading. -/
theorem memory_failure_witness :
    (getMemoryInfo defaultConfig ⟨none, 0⟩ 5000 (Except.error ())).1 = none := by
  have h := memory_failure_stale_copy_or_no_data defaultConfig ⟨none, 0⟩ 5000 (by simp)
  exact h.2 rfl

/-- C8: with the default thresholds (60/70/85), the classified status is
monotone in the usage percentage: a reading with a higher (tenths of a)
percent is never classified into a less severe tier. -/
theorem status_monotone_in_usage (p q : Int) (h : p ≤ q) :
    severityRank (classifyStatus defaultConfig p)
      ≤ severityRank (classifyStatus defaultConfig q) := by
  simp only [classifyStatus, defaultConfig]
  split_ifs <;> simp [severityRank] <;> omega

/-- C8 witness: 50.0% is classified no more severely than 90.0%. -/
theorem status_monotone_witness :
    severityRank (classifyStatus defaultConfig 500)
      ≤ severityRank (classifyStatus defaultConfig 900) :=
  status_monotone_in_usage 500 900 (by norm_num)

/-- C9 counterexample: an update carrying the out-of-range memory limit 0
is not clamped into [1000, 5000]: the JavaScript truthiness guard skips the
clamp and Object.assign stores 0. -/
theorem zero_ram_limit_escapes_clamp :
    (updateConfig defaultConfig ⟨some 0, none, none, none⟩).ramLimit = 0
    ∧ ¬ (1000 ≤ (updateConfig defaultConfig ⟨some 0, none, none, none⟩).ramLimit) := by
  decide

/-- C9 amended: every update carrying a nonzero memory limit leaves the
stored limit in [1000, 5000], and every update carrying a nonzero sleep
timer leaves the stored timer in [1, 60]; a present value of exactly 0
escapes both clamps through the truthiness guard. -/
theorem updateConfig_clamps_nonzero (cfg : Config) (nc : ConfigUpdate) :
    (∀ v, nc.ramLimit = some v → v ≠ 0 →
        1000 ≤ (updateConfig cfg nc).ramLimit ∧ (updateConfig cfg nc).ramLimit ≤ 5000)
    ∧ (∀ v, nc.sleepTimer = some v → v ≠ 0 →
        1 ≤ (updateConfig cfg nc).sleepTimer ∧ (updateConfig cfg nc).sleepTimer ≤ 60) := by
  constructor <;> intro v hv hnz <;> simp [updateConfig, hv, hnz]

/-- C9 witness: an oversized update is clamped into range. -/
theorem updateConfig_clamps_witness :
    1000 ≤ (updateConfig defaultConfig ⟨some 99999, some 999, none, none⟩).ramLimit
    ∧ (updateConfig defaultConfig ⟨some 99999, some 999, none, none⟩).ramLimit ≤ 5000 :=
  (updateConfig_clamps_nonzero defaultConfig ⟨some 99999, some 999, none, none⟩).1
    99999 rfl (by norm_num)

/-- C10: on a URL the host parser rejects, both membership checks return
false and the classification falls through to the default (normal) policy:
canSleep yields the null result and the sleep priority is 1.  The embedded
functions are total, modelling the try/catch recovery of the source. -/
theorem malformed_url_policy_defaults (wm : WhitelistManager) (url : String)
    (h : parseHostname url = none) :
    isWhitelisted wm url = false ∧ isBlacklisted wm url = false
    ∧ canSleep wm url = none ∧ getSleepPriority wm url = 1 := by
  have h1 : isWhitelisted wm url = false := by unfold isWhitelisted; rw [h]
  have h2 : isBlacklisted wm url = false := by unfold isBlacklisted; rw [h]
  refine ⟨h1, h2, ?_, ?_⟩ <;> simp [canSleep, getSleepPriority, h1, h2]

/-- C10 witness: the unparseable string falls through to normal policy
even with both sets populated. -/
theorem malformed_url_policy_witness :
    getSleepPriority wmPlain "not a url" = 1 :=
  (malformed_url_policy_defaults wmPlain "not a url" (by decide)).2.2.2

/-- C1: a handle whose URL is matched by the allow-set (sleep priority 0,
policy never) is never part of the discard list built by the policy-aware
selection loop, for every tab snapshot and every per-tab optimal time the
ML worker may produce. -/
theorem whitelisted_tab_never_selected (wm : WhitelistManager)
    (tabs : List TabInfo) (optimalTime : TabInfo → Int) (tab : TabInfo)
    (h : isWhitelisted wm tab.url = true) :
    tab ∉ selectTabsToSleepML wm tabs optimalTime := by
  intro hmem
  have hpred := (List.mem_filter.mp hmem).2
  simp [mlSleepPredicate, getSleepPriority, h] at hpred

/-- C1 witness: the long-idle high-score tab on the allow-listed host is
not selected. -/
theorem whitelisted_tab_never_selected_witness :
    isWhitelisted wmAllow mailTab.url = true
    ∧ mailTab ∉ selectTabsToSleepML wmAllow [mailTab] (fun _ => 0) :=
  ⟨by decide,
   whitelisted_tab_never_selected wmAllow [mailTab] (fun _ => 0) mailTab (by decide)⟩

/-- C2 counterexample: an audible handle that is neither active nor
suspended is not scored 0: the scoring function never consults the audible
flag and returns the base score 50 for this tab. -/
theorem audible_tab_not_scored_zero :
    audibleTabC2.audible = true ∧ audibleTabC2.isActive = false
    ∧ audibleTabC2.isSleeping = false ∧ tabSleepScore 0 audibleTabC2 = 50 := by
  decide

/-- C2 amended: active or suspended handles score exactly 0 through the
short-circuit; audible handles are not short-circuited by the scoring
function (the candidate filter excludes them instead); and every score is
an integer clamped to [0, 100]. -/
theorem sleep_score_shortcircuit_and_clamped (now : Nat) (tab : TabInfo) :
    (tab.isActive = true ∨ tab.isSleeping = true → tabSleepScore now tab = 0)
    ∧ 0 ≤ tabSleepScore now tab ∧ tabSleepScore now tab ≤ 100 := by
  constructor
  · intro has
    have hc : (tab.isActive || tab.isSleeping) = true := by
      rcases has with h | h <;> simp [h]
    simp [tabSleepScore, calculateSleepScore, hc]
  · unfold tabSleepScore calculateSleepScore
    by_cases h : (tab.isActive || tab.isSleeping) = true
    · rw [if_pos h]
      exact ⟨le_refl 0, by norm_num⟩
    · rw [if_neg h]
      exact ⟨le_max_left _ _, max_le (by norm_num) (min_le_left _ _)⟩

/-- C2 witness: the short-circuit at an active handle. -/
theorem sleep_score_shortcircuit_witness :
    tabSleepScore 0 { audibleTabC2 with isActive := true } = 0 :=
  (sleep_score_shortcircuit_and_clamped 0 { audibleTabC2 with isActive := true }).1
    (Or.inl rfl)

/-- C5 counterexample: Scenario B at the boundary: activationCount 35,
effective threshold exactly 10 minutes (600000 ms, passed in twentieths),
inactivity exactly 20.0 minutes: the source comparison is strict, so the
handle is NOT eligible, against the claimed inclusive comparison. -/
theorem exact_double_threshold_not_eligible :
    tabB.metadata.map TabMeta.activationCount = some 35
    ∧ tabB.inactiveTime = 1200000
    ∧ shouldTabSleep 10000000 tabB (20 * 600000) 500 = false := by
  decide

/-- C5 amended: for a handle with activationCount above 30 (and past the
creation grace period), eligibility holds exactly when the inactivity
strictly exceeds twice the effective threshold; at exactly twice the
threshold the handle is not eligible. -/
theorem high_activation_requires_strictly_double (now : Nat) (tab : TabInfo)
    (t20 u : Int) (md : TabMeta) (hmd : tab.metadata = some md)
    (hact : 30 < md.activationCount) (hgrace : ¬ now - md.createdAt < 180000)
    (ht : 0 ≤ t20) :
    shouldTabSleep now tab t20 u
      = decide (2 * t20 < 20 * (tab.inactiveTime : Int)) := by
  unfold shouldTabSleep
  simp only [hmd]
  by_cases h1 : 20 * (tab.inactiveTime : Int) < t20
  · rw [if_pos h1]
    have hnot : ¬ (2 * t20 < 20 * (tab.inactiveTime : Int)) := by omega
    simp [hnot]
  · rw [if_neg h1, if_neg hgrace, if_pos hact]

/-- C5 witness: one millisecond past the strict double threshold the tab
becomes eligible. -/
theorem high_activation_witness :
    shouldTabSleep 10000000 tabBplus (20 * 600000) 500 = true := by
  rw [high_activation_requires_strictly_double 10000000 tabBplus (20 * 600000) 500
    ⟨0, 35, 0, none, 0⟩ rfl (by norm_num) (by norm_num) (by norm_num)]
  decide

/-- C6: whenever the parsed hostname of a URL matches the allow-set, by
exact entry or by compiled wildcard pattern, the policy classifies the
handle never-suspend: canSleep is false and the sleep priority is 0,
whatever the deny-set holds. -/
theorem allow_match_classifies_never (wm : WhitelistManager) (url host : String)
    (hparse : parseHostname url = some host)
    (hmatch : wm.whitelist.contains host = true
      ∨ wm.whitelist.any (fun p => patternTest p host) = true) :
    canSleep wm url = some false ∧ getSleepPriority wm url = 0 := by
  have hw : isWhitelisted wm url = true := by
    unfold isWhitelisted
    rw [hparse]
    show (wm.whitelist.contains host
      || wm.whitelist.any (fun p => patternTest p host)) = true
    rw [Bool.or_eq_true]
    exact hmatch
  unfold canSleep getSleepPriority
  rw [hw]
  simp

/-- C4: for every cycle with auto sleep on, the tiered pass selects exactly
the top ceiling(fraction x eligible) entries of the eligible candidate list
sorted by score descending, with fraction 8/10 at critical, 6/10 at
warning, 4/10 at elevated and 3/10 at optimal (each ceiling characterized
by its two bounding inequalities), and in particular a critical cycle with
10 eligible candidates selects exactly 8 of them. -/
theorem tiered_pass_selects_top_fraction (cfg : Config) (mem : MemoryReading)
    (tabs : List TabInfo) (now : Nat) (hauto : cfg.autoSleep = true) :
    (checkAndSleepPlan cfg mem tabs now).1
      = (sortScoreDesc (eligibleCandidates cfg mem tabs now)).take
          (tieredTargetCount mem.status (eligibleCandidates cfg mem tabs now).length)
    ∧ (mem.status = .critical →
        8 * (eligibleCandidates cfg mem tabs now).length
          ≤ 10 * tieredTargetCount mem.status (eligibleCandidates cfg mem tabs now).length
        ∧ 10 * tieredTargetCount mem.status (eligibleCandidates cfg mem tabs now).length
          < 8 * (eligibleCandidates cfg mem tabs now).length + 10)
    ∧ (mem.status = .warning →
        6 * (eligibleCandidates cfg mem tabs now).length
          ≤ 10 * tieredTargetCount mem.status (eligibleCandidates cfg mem tabs now).length
        ∧ 10 * tieredTargetCount mem.status (eligibleCandidates cfg mem tabs now).length
          < 6 * (eligibleCandidates cfg mem tabs now).length + 10)
    ∧ (mem.status = .elevated →
        4 * (eligibleCandidates cfg mem tabs now).length
          ≤ 10 * tieredTargetCount mem.status (eligibleCandidates cfg mem tabs now).length
        ∧ 10 * tieredTargetCount mem.status (eligibleCandidates cfg mem tabs now).length
          < 4 * (eligibleCandidates cfg mem tabs now).length + 10)
    ∧ (mem.status = .optimal →
        3 * (eligibleCandidates cfg mem tabs now).length
          ≤ 10 * tieredTargetCount mem.status (eligibleCandidates cfg mem tabs now).length
        ∧ 10 * tieredTargetCount mem.status (eligibleCandidates cfg mem tabs now).length
          < 3 * (eligibleCandidates cfg mem tabs now).length + 10)
    ∧ (mem.status = .critical → (eligibleCandidates cfg mem tabs now).length = 10 →
        (checkAndSleepPlan cfg mem tabs now).1.length = 8) := by
  have hplan : (checkAndSleepPlan cfg mem tabs now).1
      = (sortScoreDesc (eligibleCandidates cfg mem tabs now)).take
          (tieredTargetCount mem.status (eligibleCandidates cfg mem tabs now).length) := by
    simp only [checkAndSleepPlan, hauto, Bool.not_true, Bool.false_eq_true, if_false]
    rw [sortScoreDesc_length]
  refine ⟨hplan, ?_, ?_, ?_, ?_, ?_⟩
  · intro hs; rw [hs]; simp only [tieredTargetCount, jsCeilMulTenths]; omega
  · intro hs; rw [hs]; simp only [tieredTargetCount, jsCeilMulTenths]; omega
  · intro hs; rw [hs]; simp only [tieredTargetCount, jsCeilMulTenths]; omega
  · intro hs; rw [hs]; simp only [tieredTargetCount, jsCeilMulTenths]; omega
  · intro hs hlen
    rw [hplan, List.length_take, sortScoreDesc_length, hlen, hs]
    decide

/-- C4 witness, Scenario A: critical reading at 90.0%, ten eligible
normal-policy handles with scores 90, 85, ..., 45: exactly 8 are selected
by the tiered pass. -/
theorem tiered_pass_scenario_a_witness :
    (checkAndSleepPlan cfg4 mem4 tabs4 0).1.length = 8 := by
  have h := tiered_pass_selects_top_fraction cfg4 mem4 tabs4 0 rfl
  exact h.2.2.2.2.2 rfl (by decide)

/-- C3 (code-bug evaluation at the failing input): aggressive mode on and
a critical reading, ten non-protected handles of which only two pass the
tiered eligibility (the others are inside the creation grace period).  The
tiered pass discards both; the emergency pass then computes the 70% target
7 over all ten non-protected handles, subtracts the 2 already slept, and
discards the first 5 of the same score-sorted list, which starts with the
two handles already discarded: the top-scoring handle appears in both
discard lists, so the pass re-discards selected handles instead of only
topping up. -/
theorem emergency_pass_discards_twice :
    cfg3.aggressiveMode = true ∧ mem3.status = MemStatus.critical
    ∧ (checkAndSleepPlan cfg3 mem3 tabs3 now3).1.length = 2
    ∧ (checkAndSleepPlan cfg3 mem3 tabs3 now3).2.length = 5
    ∧ tabC3one ∈ (checkAndSleepPlan cfg3 mem3 tabs3 now3).1
    ∧ tabC3one ∈ (checkAndSleepPlan cfg3 mem3 tabs3 now3).2 := by
  decide

/-- C6 witness, Scenario C: pattern *.example.com in the allow-set and the
same hostname in the deny-set; https://mail.example.com/inbox classifies
never. -/
theorem allow_match_classifies_never_witness :
    canSleep wmBoth "https://mail.example.com/inbox" = some false
    ∧ getSleepPriority wmBoth "https://mail.example.com/inbox" = 0 :=
  allow_match_classifies_never wmBoth "https://mail.example.com/inbox"
    "mail.example.com" (by decide) (Or.inr (by decide))
